import Mathlib

/-!
Verification of the SARDIN-AI real-time data distribution layer.

This file gives a shallow embedding of the repository's pub/sub code:

* the server-side WebSocket hub (`DataGenerators.broadcast`, the
  `wss.on('connection')` message handlers, and the `clients` set) from
  `sardin-ai-project/deploy.sh` (the embedded `realtime/route.ts` file);
* the client-side `RealtimeService` (reconnect backoff, heartbeat,
  listener registry, message-queue processing and inbound dispatch) from
  the unnamed client source file.

Machine-level JavaScript values are modelled by the inductive `JSValue`
(with a `bigintVal` constructor on which `JSON.stringify` throws);
stateful code is modelled by explicit state passing; thrown exceptions
are modelled by `Except` / removal branches exactly where the source has
`try`/`catch`.
-/

namespace SardinAI

/--
A JSON-like JavaScript value, as handed to `JSON.stringify` by the hub.
`bigintVal` represents a `BigInt` leaf, on which `JSON.stringify` throws a
`TypeError` (the repository's only representable non-serializable payload;
circular structures cannot arise for inductively built values).
-/
inductive JSValue where
  | null
  | boolVal (b : Bool)
  | numVal (n : Int)
  | strVal (s : String)
  | bigintVal (n : Int)
  | arr (elems : List JSValue)
  | obj (fields : List (String × JSValue))

mutual

/-- Whether `JSON.stringify` succeeds on the value (it throws on `BigInt`). -/
def serializable : JSValue → Bool
  | .null => true
  | .boolVal _ => true
  | .numVal _ => true
  | .strVal _ => true
  | .bigintVal _ => false
  | .arr xs => serializableList xs
  | .obj fs => serializableFields fs

/-- `serializable` on every element of an array. -/
def serializableList : List JSValue → Bool
  | [] => true
  | x :: xs => serializable x && serializableList xs

/-- `serializable` on every field value of an object. -/
def serializableFields : List (String × JSValue) → Bool
  | [] => true
  | (_, v) :: fs => serializable v && serializableFields fs

end

/--
One entry of the server's `clients : Set<WebSocket>`.

`isOpen` embeds `client.readyState === WebSocket.OPEN`; `sendFails`
marks a connection whose transport write (`client.send`) throws;
`queueDepth` is the transport's outbound buffer depth (the `ws` library
buffers each successful `send`; the hub code never reads it).
-/
structure Client where
  id : Nat
  isOpen : Bool
  sendFails : Bool
  queueDepth : Nat
deriving Repr, DecidableEq

/-- The server state: the module-level `clients` set (as a list). -/
structure ServerState where
  clients : List Client
deriving Repr, DecidableEq

/-- The empty `clients` set the module starts with. -/
def initialServerState : ServerState := ⟨[]⟩

/-- One handed-to-transport copy of a payload, addressed to a client. -/
structure Delivery where
  clientId : Nat
  payload : JSValue

/--
One iteration of the `clients.forEach` loop in `DataGenerators.broadcast`:
skip a non-OPEN client (it stays in the set); otherwise `try client.send`
— on success record the delivery and keep the client (its transport
buffer grows by one); on a thrown error the `catch` runs
`clients.delete(client)` and the loop continues.
-/
def broadcastStep (payload : JSValue) (acc : List Delivery × List Client)
    (c : Client) : List Delivery × List Client :=
  if c.isOpen then
    if c.sendFails then
      (acc.1, acc.2)
    else
      (acc.1 ++ [⟨c.id, payload⟩], acc.2 ++ [{ c with queueDepth := c.queueDepth + 1 }])
  else
    (acc.1, acc.2 ++ [c])

/--
`DataGenerators.broadcast(data)`: first `JSON.stringify(data)` — a
non-serializable payload throws here, before the loop, modelled by
`Except.error` — then the `clients.forEach` send loop. Returns the
deliveries made and the new client set.
-/
def broadcast (payload : JSValue) (st : ServerState) :
    Except Unit (List Delivery × ServerState) :=
  if serializable payload then
    let r := st.clients.foldl (broadcastStep payload) ([], [])
    .ok (r.1, ⟨r.2⟩)
  else
    .error ()

/-- An inbound client message after `JSON.parse` (`malformed` = parse threw). -/
inductive ClientMsg where
  | heartbeat (timestamp : String)
  | subscribe (types : List String)
  | unsubscribe (types : List String)
  | malformed (raw : String)
deriving Repr, DecidableEq

/-- A message the `ws.on('message')` handler sends back to the sender. -/
inductive ServerResponse where
  | heartbeatResponse (received : String)
deriving Repr, DecidableEq

/--
The `ws.on('message')` handler of the hub: a `heartbeat` is answered with
a `heartbeat_response`; `subscribe` and `unsubscribe` are only logged
(`console.log`) — the handler records no subscription state; a JSON
parse error is caught and logged. No branch touches the `clients` set.
-/
def handleClientMessage (st : ServerState) (m : ClientMsg) :
    List ServerResponse × ServerState :=
  match m with
  | .heartbeat ts => ([.heartbeatResponse ts], st)
  | .subscribe _ => ([], st)
  | .unsubscribe _ => ([], st)
  | .malformed _ => ([], st)

/-- The welcome message `ws.send` pushes to each newly connected client. -/
def welcomeMessage : JSValue :=
  .obj [("type", .strVal "system"),
        ("message", .strVal "Connected to SARDIN-AI real-time data stream")]

/--
An event of the server's single-threaded reactor: a transport accept, an
inbound client message, a transport close or error, a publish from a data
generator or the POST route, or the bare passage of time (`elapse` — the
server installs no liveness timer, so time alone triggers no handler).
-/
inductive Event where
  | connect (id : Nat)
  | clientMsg (id : Nat) (m : ClientMsg)
  | closeEvt (id : Nat)
  | errorEvt (id : Nat)
  | publish (payload : JSValue)
  | elapse (ms : Nat)

/--
One reactor step of the hub. `connect` runs the `wss.on('connection')`
handler: `clients.add(ws)` plus the welcome send. `closeEvt`/`errorEvt`
run `clients.delete(ws)`. `clientMsg` runs `handleClientMessage`.
`publish` runs `broadcast`; a serialization error propagates to the
publishing callback and leaves the client set untouched. `elapse` runs
nothing: the server registers no heartbeat-timeout timer.
-/
def serverStep (st : ServerState) (e : Event) : ServerState × List Delivery :=
  match e with
  | .connect i => (⟨st.clients ++ [⟨i, true, false, 0⟩]⟩, [⟨i, welcomeMessage⟩])
  | .clientMsg _ m => ((handleClientMessage st m).2, [])
  | .closeEvt i => (⟨st.clients.filter (fun c => c.id ≠ i)⟩, [])
  | .errorEvt i => (⟨st.clients.filter (fun c => c.id ≠ i)⟩, [])
  | .publish p =>
    match broadcast p st with
    | .ok (ds, st') => (st', ds)
    | .error _ => (st, [])
  | .elapse _ => (st, [])

/-- Run a sequence of reactor events, accumulating all deliveries in order. -/
def runTrace (st : ServerState) : List Event → ServerState × List Delivery
  | [] => (st, [])
  | e :: es =>
    let r := serverStep st e
    let r' := runTrace r.1 es
    (r'.1, r.2 ++ r'.2)

/--
Spec-side subscription predicate, used only to state the original claims.
Modelled from the spec: a connection is subscribed to topic `T` iff it has
sent a `subscribe` message containing `T` that is not followed by an
`unsubscribe` containing `T` or by its own disconnect. The hub code keeps
no such state; this predicate reads it off the event trace.
-/
def specSubscribedTo (i : Nat) (topic : String) (evts : List Event) : Bool :=
  evts.foldl (fun sub e =>
    match e with
    | .clientMsg j (.subscribe ts) => if j = i && ts.contains topic then true else sub
    | .clientMsg j (.unsubscribe ts) => if j = i && ts.contains topic then false else sub
    | .closeEvt j => if j = i then false else sub
    | .errorEvt j => if j = i then false else sub
    | _ => sub) false

/-- A concrete serializable `vessel` envelope, as built by `startVesselData`. -/
def vesselPayload : JSValue :=
  .obj [("type", .strVal "vessel"),
        ("data", .obj [("vessels", .arr [])])]

/-- A concrete serializable `oceanographic` envelope. -/
def oceanPayload : JSValue :=
  .obj [("type", .strVal "oceanographic"),
        ("data", .obj [("sea_surface_temp", .numVal 18)])]

/--
The fate of one client in a broadcast: a non-OPEN client is skipped and
kept; an OPEN client whose `send` throws is deleted; an OPEN client whose
`send` succeeds is kept with its transport buffer one deeper.
-/
def keepAfterSend (c : Client) : Option Client :=
  if c.isOpen then
    if c.sendFails then none
    else some { c with queueDepth := c.queueDepth + 1 }
  else some c

/-- The deliveries one broadcast of `p` makes, in client-set order. -/
def deliveredList (p : JSValue) (st : ServerState) : List Delivery :=
  (st.clients.filter (fun c => c.isOpen && !c.sendFails)).map (fun c => ⟨c.id, p⟩)

/- ===== Client side: `RealtimeService` ===== -/

/-- `RealtimeService.maxReconnectAttempts` (source: `= 5`). -/
def maxReconnectAttempts : Nat := 5

/-- `RealtimeService.reconnectDelay` (source: `= 1000` ms). -/
def reconnectDelay : Nat := 1000

/-- The period of `startHeartbeat`'s `setInterval`, hard-coded `30000` ms. -/
def heartbeatIntervalMs : Nat := 30000

/-- The reconnect-relevant part of `RealtimeService`'s state. -/
structure ReconnectState where
  reconnectAttempts : Nat
deriving Repr, DecidableEq

/--
`RealtimeService.attemptReconnect`: if the counter has reached
`maxReconnectAttempts` it returns without scheduling anything; otherwise
it increments the counter and schedules `connect` via
`setTimeout(.., reconnectDelay * 2 ** (attempts - 1))`. The first
component is the scheduled delay (`none` = no attempt scheduled).
-/
def attemptReconnect (s : ReconnectState) : Option Nat × ReconnectState :=
  if s.reconnectAttempts ≥ maxReconnectAttempts then
    (none, s)
  else
    let attempts := s.reconnectAttempts + 1
    (some (reconnectDelay * 2 ^ (attempts - 1)), ⟨attempts⟩)

/-- `ws.onopen` sets `connectionStatus = 'connected'` and `reconnectAttempts = 0`. -/
def onOpenReset (_ : ReconnectState) : ReconnectState := ⟨0⟩

/-- The client state after `n` consecutive failed connections from a fresh start. -/
def nthReconnectState : Nat → ReconnectState
  | 0 => ⟨0⟩
  | n + 1 => (attemptReconnect (nthReconnectState n)).2

/-- One registered callback; `throws` marks a callback whose body throws. -/
structure Listener where
  lid : Nat
  throws : Bool
deriving Repr, DecidableEq

/-- `RealtimeService.listeners : Map<string, Array<callback>>`. -/
abbrev ListenerMap := List (String × List Listener)

/-- `listeners.get(type) || []`. -/
def getListeners (m : ListenerMap) (t : String) : List Listener :=
  match m with
  | [] => []
  | (k, ls) :: rest => if k = t then ls else getListeners rest t

/--
`RealtimeService.subscribe(type, callback)`: if the map has no entry for
`type` it sets an empty array, then pushes `callback` onto it. Always
succeeds; the callback is appended unconditionally.
-/
def subscribeListener (t : String) (cb : Listener) : ListenerMap → ListenerMap
  | [] => [(t, [cb])]
  | (k, ls) :: rest =>
    if k = t then (k, ls ++ [cb]) :: rest
    else (k, ls) :: subscribeListener t cb rest

/-- Running one callback: a throwing callback raises, others return. -/
def runCallback (l : Listener) : Except Unit Unit :=
  if l.throws then .error () else .ok ()

/--
The `forEach` loop of `handleMessage`'s notification step: each listener
is called inside `try { listener(data) } catch { console.error(..) }`, so
a throw is swallowed and the loop continues. Returns the ids of the
callbacks that were invoked, in call order.
-/
def invokeAll (ls : List Listener) : List Nat :=
  ls.foldl (fun acc l =>
    match runCallback l with
    | .ok _ => acc ++ [l.lid]
    | .error _ => acc ++ [l.lid]) []

/-- An inbound message as seen by the client (`data.type` plus payload). -/
structure RealtimeData where
  dataType : String
  payload : JSValue

/--
The notification step of `RealtimeService.handleMessage`: look up the
listeners for the message's type and the `*` wildcard listeners, and
invoke each of `[...typeListeners, ...allListeners]`.
-/
def dispatchMessage (m : ListenerMap) (msg : RealtimeData) : List Nat :=
  invokeAll (getListeners m msg.dataType ++ getListeners m "*")

/-- The queueing part of `RealtimeService`'s state. -/
structure QueueState where
  messageQueue : List RealtimeData
  isProcessingQueue : Bool

/--
`RealtimeService.handleMessage`: while `isProcessingQueue` the message is
pushed onto `messageQueue` and nothing is dispatched; otherwise it is
dispatched immediately. Returns the new state and the invoked callback
ids.
-/
def handleMessage (m : ListenerMap) (s : QueueState) (msg : RealtimeData) :
    QueueState × List Nat :=
  if s.isProcessingQueue then
    ({ s with messageQueue := s.messageQueue ++ [msg] }, [])
  else
    (s, dispatchMessage m msg)

/-- Feed a sequence of inbound messages through `handleMessage`. -/
def clientRun (m : ListenerMap) (s : QueueState) :
    List RealtimeData → QueueState × List Nat
  | [] => (s, [])
  | msg :: rest =>
    let r := handleMessage m s msg
    let r' := clientRun m r.1 rest
    (r'.1, r.2 ++ r'.2)

/-- An event that carries no connect/close/error/publish: an inbound
message or the bare passage of time. -/
def passiveEvent : Event → Bool
  | .clientMsg _ _ => true
  | .elapse _ => true
  | _ => false

/- ===== Helper lemmas ===== -/

/-- The `clients.forEach` send loop, characterised as filter/filterMap. -/
theorem broadcast_foldl (p : JSValue) (cs : List Client)
    (acc : List Delivery × List Client) :
    cs.foldl (broadcastStep p) acc =
      (acc.1 ++ (cs.filter (fun c => c.isOpen && !c.sendFails)).map
        (fun c => ⟨c.id, p⟩),
       acc.2 ++ cs.filterMap keepAfterSend) := by
  induction cs generalizing acc with
  | nil => simp
  | cons c cs ih =>
    simp only [List.foldl_cons, ih, List.filter_cons, List.filterMap_cons]
    unfold broadcastStep keepAfterSend
    by_cases ho : c.isOpen <;> by_cases hf : c.sendFails <;>
      simp [ho, hf, List.append_assoc]

/-- `broadcast` on a serializable payload: the deliveries are one per
OPEN non-failing client and the new set is `keepAfterSend` of the old. -/
theorem broadcast_eq_ok (p : JSValue) (st : ServerState)
    (h : serializable p = true) :
    broadcast p st =
      .ok (deliveredList p st, ⟨st.clients.filterMap keepAfterSend⟩) := by
  unfold broadcast deliveredList
  simp [h, broadcast_foldl]

/-- `keepAfterSend` never changes a client's id. -/
theorem keepAfterSend_id (c b : Client) (h : keepAfterSend c = some b) :
    b.id = c.id := by
  unfold keepAfterSend at h
  by_cases ho : c.isOpen <;> by_cases hf : c.sendFails <;>
    simp [ho, hf] at h <;> simp [← h]

/-- The ids surviving a broadcast form a sublist of the previous ids. -/
theorem idsAfterSend_sublist (l : List Client) :
    ((l.filterMap keepAfterSend).map Client.id).Sublist (l.map Client.id) := by
  induction l with
  | nil => simp
  | cons c cs ih =>
    rw [List.filterMap_cons]
    cases hk : keepAfterSend c with
    | none => exact (List.map_cons Client.id c cs ▸ ih.cons c.id)
    | some b =>
      simp only [List.map_cons, keepAfterSend_id c b hk]
      exact ih.cons₂ c.id

/-- The `ws.on('message')` handler never mutates the client set. -/
theorem handleClientMessage_state (st : ServerState) (m : ClientMsg) :
    (handleClientMessage st m).2 = st := by
  cases m <;> rfl

/-- In a list whose image under `f` has no duplicates, filtering for the
image of a member isolates exactly that member. -/
theorem filter_eq_singleton_of_nodup_map {α β : Type} [DecidableEq β]
    (f : α → β) (l : List α) (hnd : (l.map f).Nodup) (c : α) (hc : c ∈ l) :
    l.filter (fun x => f x = f c) = [c] := by
  induction l with
  | nil => cases hc
  | cons a as ih =>
    rw [List.map_cons, List.nodup_cons] at hnd
    rcases List.mem_cons.mp hc with h | hc'
    · subst h
      have hnil : as.filter (fun x => f x = f c) = [] := by
        rw [List.filter_eq_nil_iff]
        intro x hx
        simp only [decide_eq_true_eq]
        intro hfx
        exact hnd.1 (hfx ▸ List.mem_map_of_mem f hx)
      simp [List.filter_cons, hnil]
    · have hne : ¬(f a = f c) := by
        intro h
        exact hnd.1 (h ▸ List.mem_map_of_mem f hc')
      simp [List.filter_cons, hne, ih hnd.2 hc']

/-- `invokeAll` invokes every listener in order, whether it throws or not. -/
theorem invokeAll_eq (ls : List Listener) :
    invokeAll ls = ls.map Listener.lid := by
  have aux : ∀ (l : List Listener) (acc : List Nat),
      l.foldl (fun acc x =>
        match runCallback x with
        | .ok _ => acc ++ [x.lid]
        | .error _ => acc ++ [x.lid]) acc = acc ++ l.map Listener.lid := by
    intro l
    induction l with
    | nil => intro acc; simp
    | cons x xs ih =>
      intro acc
      cases hr : runCallback x <;> simp [hr, ih, List.append_assoc]
  unfold invokeAll
  simpa using aux ls []

/-- `subscribeListener` appends the callback to its topic's array and
leaves every other topic's array unchanged. -/
theorem getListeners_subscribe (t : String) (cb : Listener) (m : ListenerMap) :
    getListeners (subscribeListener t cb m) t = getListeners m t ++ [cb] := by
  induction m with
  | nil => simp [subscribeListener, getListeners]
  | cons kv rest ih =>
    obtain ⟨k, ls⟩ := kv
    by_cases hk : k = t <;> simp [subscribeListener, getListeners, hk, ih]

/-- From the virgin queue state, each inbound message is dispatched at
once, in arrival order, and the queue is never used. -/
theorem clientRun_empty_queue (m : ListenerMap) (msgs : List RealtimeData) :
    clientRun m ⟨[], false⟩ msgs =
      (⟨[], false⟩, (msgs.map (dispatchMessage m)).flatten) := by
  induction msgs with
  | nil => rfl
  | cons msg rest ih => simp [clientRun, handleMessage, ih]

/- ===== Claim theorems ===== -/

/-- A two-client server state used by several witnesses: client 1 is
OPEN, client 2 is connected but not OPEN. Neither ever subscribed. -/
def wstate1 : ServerState := ⟨[⟨1, true, false, 0⟩, ⟨2, false, false, 0⟩]⟩

/-- A two-client server state in which client 1's transport write throws
and client 2's succeeds. -/
def wstate2 : ServerState := ⟨[⟨1, true, true, 0⟩, ⟨2, true, false, 0⟩]⟩

/--
C1, counterexample: the hub ignores subscriptions when fanning out.
Client 1 connects and never sends any `subscribe`, so it is not
subscribed to `vessel` in the spec's sense, yet a publish of a `vessel`
envelope delivers it a copy — the claim's "no connection that is not
subscribed to T receives any copy" fails on the code, whose `broadcast`
loops over the whole `clients` set.
-/
theorem c1_counterexample :
    specSubscribedTo 1 "vessel"
        [.connect 1, .publish vesselPayload] = false ∧
    (runTrace initialServerState
        [.connect 1, .publish vesselPayload]).2 =
      [⟨1, welcomeMessage⟩, ⟨1, vesselPayload⟩] :=
  ⟨rfl, rfl⟩

/--
C1 (amended): for every publish of a serializable envelope, every
connection in the `clients` set whose `readyState` is OPEN receives
exactly one copy of the payload (given no induced failure), and every
non-OPEN connection receives none — the fan-out set is the whole client
set, regardless of topic subscription, which the hub does not track.
-/
theorem c1_fanout_all_open (p : JSValue) (st : ServerState)
    (hs : serializable p = true)
    (hnf : ∀ c ∈ st.clients, c.sendFails = false)
    (hnd : (st.clients.map Client.id).Nodup) :
    ∃ ds st', broadcast p st = .ok (ds, st') ∧
      ds = (st.clients.filter (fun c => c.isOpen)).map (fun c => ⟨c.id, p⟩) ∧
      (∀ c ∈ st.clients, c.isOpen = true →
        (ds.map Delivery.clientId).count c.id = 1) ∧
      (∀ c ∈ st.clients, c.isOpen = false →
        (ds.map Delivery.clientId).count c.id = 0) := by
  have hfe : st.clients.filter (fun c => c.isOpen && !c.sendFails) =
      st.clients.filter (fun c => c.isOpen) :=
    List.filter_congr (fun c hc => by simp [hnf c hc])
  have hds : deliveredList p st =
      (st.clients.filter (fun c => c.isOpen)).map (fun c => ⟨c.id, p⟩) := by
    unfold deliveredList
    rw [hfe]
  have hmapid : (deliveredList p st).map Delivery.clientId =
      (st.clients.filter (fun c => c.isOpen)).map Client.id := by
    rw [hds, List.map_map]
    rfl
  have hsub : ((st.clients.filter (fun c => c.isOpen)).map Client.id).Sublist
      (st.clients.map Client.id) := (List.filter_sublist _).map Client.id
  have hnd2 : ((st.clients.filter (fun c => c.isOpen)).map Client.id).Nodup :=
    hnd.sublist hsub
  refine ⟨deliveredList p st, _, broadcast_eq_ok p st hs, hds, ?_, ?_⟩
  · intro c hc ho
    rw [hmapid]
    exact List.count_eq_one_of_mem hnd2
      (List.mem_map_of_mem _ (List.mem_filter.mpr ⟨hc, by simp [ho]⟩))
  · intro c hc ho
    rw [hmapid, List.count_eq_zero]
    intro hmem
    obtain ⟨c', hc', hid⟩ := List.mem_map.mp hmem
    have hc'mem : c' ∈ st.clients := List.mem_of_mem_filter hc'
    have hc'open : c'.isOpen = true := by
      have := List.of_mem_filter hc'
      simpa using this
    have : c' = c := List.inj_on_of_nodup_map hnd hc'mem hc hid
    rw [this, ho] at hc'open
    cases hc'open

/-- Witness for C1 (amended) on `wstate1`: the OPEN client 1 receives the
payload exactly once, the non-OPEN client 2 receives nothing. -/
theorem c1_fanout_all_open_witness :
    serializable oceanPayload = true ∧
    (∀ c ∈ wstate1.clients, c.sendFails = false) ∧
    (wstate1.clients.map Client.id).Nodup ∧
    (∃ ds st', broadcast oceanPayload wstate1 = .ok (ds, st') ∧
      ds = (wstate1.clients.filter (fun c => c.isOpen)).map
        (fun c => ⟨c.id, oceanPayload⟩) ∧
      (∀ c ∈ wstate1.clients, c.isOpen = true →
        (ds.map Delivery.clientId).count c.id = 1) ∧
      (∀ c ∈ wstate1.clients, c.isOpen = false →
        (ds.map Delivery.clientId).count c.id = 0)) :=
  ⟨by decide, by decide, by decide,
   c1_fanout_all_open oceanPayload wstate1 (by decide) (by decide) (by decide)⟩

/--
C2, counterexample: client 1 subscribes to `oceanographic`, unsubscribes,
and a publish to `oceanographic` issued after the unsubscribe returned
still delivers the payload to client 1 — the server's unsubscribe handler
only logs, so the claim's "C receives nothing" fails on the code.
-/
theorem c2_counterexample :
    specSubscribedTo 1 "oceanographic"
        [.connect 1, .clientMsg 1 (.subscribe ["oceanographic"]),
         .clientMsg 1 (.unsubscribe ["oceanographic"]),
         .publish oceanPayload] = false ∧
    (runTrace initialServerState
        [.connect 1, .clientMsg 1 (.subscribe ["oceanographic"]),
         .clientMsg 1 (.unsubscribe ["oceanographic"]),
         .publish oceanPayload]).2 =
      [⟨1, welcomeMessage⟩, ⟨1, oceanPayload⟩] :=
  ⟨rfl, rfl⟩

/--
C2 (amended): an unsubscribe is a no-op on the hub — the message handler
leaves the client set unchanged — and a publish issued after it still
delivers to the unsubscribing client as long as its connection stays
OPEN; delivery to a client stops only when the connection leaves the
client set (close, error, or send failure).
-/
theorem c2_unsubscribe_noop (st : ServerState) (types : List String)
    (c : Client) (p : JSValue) (hc : c ∈ st.clients) (ho : c.isOpen = true)
    (hf : c.sendFails = false) (hs : serializable p = true) :
    (handleClientMessage st (.unsubscribe types)).2 = st ∧
    ∃ ds st', broadcast p st = .ok (ds, st') ∧ Delivery.mk c.id p ∈ ds := by
  refine ⟨rfl, deliveredList p st, _, broadcast_eq_ok p st hs, ?_⟩
  unfold deliveredList
  exact List.mem_map_of_mem _ (List.mem_filter.mpr ⟨hc, by simp [ho, hf]⟩)

/-- Witness for C2 (amended): client 1 of `wstate1`, an `oceanographic`
unsubscribe, then a publish that still reaches it. -/
theorem c2_unsubscribe_noop_witness :
    (⟨1, true, false, 0⟩ : Client) ∈ wstate1.clients ∧
    (Client.mk 1 true false 0).isOpen = true ∧
    (Client.mk 1 true false 0).sendFails = false ∧
    serializable oceanPayload = true ∧
    ((handleClientMessage wstate1 (.unsubscribe ["oceanographic"])).2 = wstate1 ∧
     ∃ ds st', broadcast oceanPayload wstate1 = .ok (ds, st') ∧
       Delivery.mk (Client.mk 1 true false 0).id oceanPayload ∈ ds) :=
  ⟨by decide, by decide, by decide, by decide,
   c2_unsubscribe_noop wstate1 ["oceanographic"] ⟨1, true, false, 0⟩
     oceanPayload (by decide) (by decide) (by decide) (by decide)⟩

/--
C3 (isolation under failure): if during a fan-out exactly one OPEN
client's `client.send` throws, the `catch` inside the loop confines the
failure: every other OPEN client still receives its copy of that same
publish, the failing connection is deleted from the `clients` set (so it
is absent from subsequent fan-outs), no delivery is attributed to it, and
`broadcast` returns normally — nothing propagates to the publisher.
-/
theorem c3_failure_isolation (p : JSValue) (st : ServerState) (f : Client)
    (hs : serializable p = true) (hfm : f ∈ st.clients)
    (hfo : f.isOpen = true) (hff : f.sendFails = true)
    (hothers : ∀ c ∈ st.clients, c ≠ f → c.sendFails = false)
    (hnd : (st.clients.map Client.id).Nodup) :
    ∃ ds st', broadcast p st = .ok (ds, st') ∧
      (∀ c ∈ st.clients, c ≠ f → c.isOpen = true → Delivery.mk c.id p ∈ ds) ∧
      f.id ∉ st'.clients.map Client.id ∧
      (∀ d ∈ ds, d.clientId ≠ f.id) := by
  refine ⟨deliveredList p st, _, broadcast_eq_ok p st hs, ?_, ?_, ?_⟩
  · intro c hc hne ho
    unfold deliveredList
    exact List.mem_map_of_mem _
      (List.mem_filter.mpr ⟨hc, by simp [ho, hothers c hc hne]⟩)
  · intro hmem
    obtain ⟨b, hb, hid⟩ := List.mem_map.mp hmem
    obtain ⟨a, ha, hk⟩ := List.mem_filterMap.mp hb
    have haid : a.id = f.id := (keepAfterSend_id a b hk) ▸ hid
    have : a = f := List.inj_on_of_nodup_map hnd ha hfm haid
    subst this
    unfold keepAfterSend at hk
    simp [hfo, hff] at hk
  · intro d hd
    unfold deliveredList at hd
    obtain ⟨c', hc', hdc⟩ := List.mem_map.mp hd
    have hc'mem : c' ∈ st.clients := List.mem_of_mem_filter hc'
    have hc'nf : c'.sendFails = false := by
      have := List.of_mem_filter hc'
      simp at this
      exact this.2
    have hne : c' ≠ f := by
      intro h
      rw [h, hff] at hc'nf
      cases hc'nf
    intro hid
    have : d.clientId = c'.id := by rw [← hdc]
    exact hne (List.inj_on_of_nodup_map hnd hc'mem hfm (this ▸ hid))

/-- Witness for C3 on `wstate2`: client 1's write throws, client 2 still
receives the payload and client 1 leaves the set. -/
theorem c3_failure_isolation_witness :
    serializable oceanPayload = true ∧
    (⟨1, true, true, 0⟩ : Client) ∈ wstate2.clients ∧
    (Client.mk 1 true true 0).isOpen = true ∧
    (Client.mk 1 true true 0).sendFails = true ∧
    (∀ c ∈ wstate2.clients, c ≠ ⟨1, true, true, 0⟩ → c.sendFails = false) ∧
    (wstate2.clients.map Client.id).Nodup ∧
    (∃ ds st', broadcast oceanPayload wstate2 = .ok (ds, st') ∧
      (∀ c ∈ wstate2.clients, c ≠ ⟨1, true, true, 0⟩ → c.isOpen = true →
        Delivery.mk c.id oceanPayload ∈ ds) ∧
      (Client.mk 1 true true 0).id ∉ st'.clients.map Client.id ∧
      (∀ d ∈ ds, d.clientId ≠ (Client.mk 1 true true 0).id)) :=
  ⟨by decide, by decide, by decide, by decide, by decide, by decide,
   c3_failure_isolation oceanPayload wstate2 ⟨1, true, true, 0⟩
     (by decide) (by decide) (by decide) (by decide) (by decide) (by decide)⟩

/--
C4, counterexample: a connection whose outbound queue depth (1000) far
exceeds a configured limit of 10 is not disconnected by the hub: the next
broadcast still delivers to it and keeps it in the client set with its
buffer one deeper — and the server state carries no drop counter at all.
-/
theorem c4_counterexample :
    (1000 > 10) ∧
    broadcast oceanPayload ⟨[⟨1, true, false, 1000⟩]⟩ =
      .ok ([⟨1, oceanPayload⟩], ⟨[⟨1, true, false, 1001⟩]⟩) :=
  ⟨by decide, rfl⟩

/--
C4 (amended): the hub applies no backpressure policy. Whatever a
connection's outbound queue depth, a broadcast to an OPEN connection
whose write succeeds always keeps it in the client set with its
transport buffer deepened by one — buffering is unbounded and delegated
to the transport — and the connection still receives the payload; the
hub never disconnects for queue depth and maintains no drop counter.
-/
theorem c4_no_backpressure (p : JSValue) (st : ServerState) (c : Client)
    (hs : serializable p = true) (hc : c ∈ st.clients)
    (ho : c.isOpen = true) (hf : c.sendFails = false) :
    ∃ ds st', broadcast p st = .ok (ds, st') ∧
      { c with queueDepth := c.queueDepth + 1 } ∈ st'.clients ∧
      Delivery.mk c.id p ∈ ds := by
  refine ⟨deliveredList p st, _, broadcast_eq_ok p st hs, ?_, ?_⟩
  · exact List.mem_filterMap.mpr ⟨c, hc, by unfold keepAfterSend; simp [ho, hf]⟩
  · unfold deliveredList
    exact List.mem_map_of_mem _ (List.mem_filter.mpr ⟨hc, by simp [ho, hf]⟩)

/-- Witness for C4 (amended): a client with queue depth 1000000 is kept,
deepened and still served. -/
theorem c4_no_backpressure_witness :
    serializable oceanPayload = true ∧
    (⟨1, true, false, 1000000⟩ : Client) ∈
      (⟨[⟨1, true, false, 1000000⟩]⟩ : ServerState).clients ∧
    (Client.mk 1 true false 1000000).isOpen = true ∧
    (Client.mk 1 true false 1000000).sendFails = false ∧
    (∃ ds st', broadcast oceanPayload ⟨[⟨1, true, false, 1000000⟩]⟩ =
        .ok (ds, st') ∧
      { Client.mk 1 true false 1000000 with
          queueDepth := (Client.mk 1 true false 1000000).queueDepth + 1 } ∈
        st'.clients ∧
      Delivery.mk (Client.mk 1 true false 1000000).id oceanPayload ∈ ds) :=
  ⟨by decide, by decide, by decide, by decide,
   c4_no_backpressure oceanPayload ⟨[⟨1, true, false, 1000000⟩]⟩
     ⟨1, true, false, 1000000⟩ (by decide) (by decide) (by decide) (by decide)⟩

/--
C5 (reconnect backoff): with `maxReconnectAttempts = 5` and a base delay
of 1000 ms, the Nth automatic reconnect attempt (N = 1..5) is scheduled
with `setTimeout` delay exactly `1000 * 2^(N-1)` ms after the previous
failure (hence no earlier than that), starting from the 6th failure
`attemptReconnect` schedules nothing, and `ws.onopen` resets the attempt
counter to 0.
-/
theorem c5_reconnect_backoff (N : Nat) (h1 : 1 ≤ N) (h5 : N ≤ 5) :
    (attemptReconnect (nthReconnectState (N - 1))).1 =
      some (1000 * 2 ^ (N - 1)) ∧
    (attemptReconnect (nthReconnectState 5)).1 = none ∧
    ∀ s : ReconnectState, onOpenReset s = ⟨0⟩ := by
  refine ⟨?_, by decide, fun s => rfl⟩
  interval_cases N <;> decide

/-- Witness for C5 at N = 3. -/
theorem c5_reconnect_backoff_witness :
    1 ≤ 3 ∧ 3 ≤ 5 ∧
    ((attemptReconnect (nthReconnectState 2)).1 = some (1000 * 2 ^ 2) ∧
     (attemptReconnect (nthReconnectState 5)).1 = none ∧
     ∀ s : ReconnectState, onOpenReset s = ⟨0⟩) :=
  ⟨by decide, by decide, c5_reconnect_backoff 3 (by decide) (by decide)⟩

/-- Across a run of consecutive publishes, an OPEN non-failing client
receives exactly the published payloads, in publish order. -/
theorem runPublishes_delivered (ps : List JSValue) :
    ∀ (st : ServerState) (c : Client), (∀ p ∈ ps, serializable p = true) →
      c ∈ st.clients → c.isOpen = true → c.sendFails = false →
      (st.clients.map Client.id).Nodup →
      ((runTrace st (ps.map .publish)).2.filter
          (fun d => d.clientId = c.id)).map Delivery.payload = ps := by
  induction ps with
  | nil =>
    intro st c _ _ _ _ _
    rfl
  | cons p ps ih =>
    intro st c hs hc ho hf hnd
    have hp : serializable p = true := hs p (List.mem_cons_self p ps)
    have hstep : serverStep st (.publish p) =
        (⟨st.clients.filterMap keepAfterSend⟩, deliveredList p st) := by
      simp [serverStep, broadcast_eq_ok p st hp]
    have hone : (deliveredList p st).filter (fun d => d.clientId = c.id) =
        [⟨c.id, p⟩] := by
      unfold deliveredList
      rw [List.filter_map]
      have hcf : c ∈ st.clients.filter (fun x => x.isOpen && !x.sendFails) :=
        List.mem_filter.mpr ⟨hc, by simp [ho, hf]⟩
      have hndf : ((st.clients.filter
          (fun x => x.isOpen && !x.sendFails)).map Client.id).Nodup :=
        hnd.sublist ((List.filter_sublist _).map Client.id)
      have := filter_eq_singleton_of_nodup_map Client.id
        (st.clients.filter (fun x => x.isOpen && !x.sendFails)) hndf c hcf
      have hgoal : ((fun d : Delivery => decide (d.clientId = c.id)) ∘
          fun x : Client => (⟨x.id, p⟩ : Delivery)) =
          fun x : Client => decide (x.id = c.id) := rfl
      rw [hgoal, this]
      rfl
    have hc' : ({ c with queueDepth := c.queueDepth + 1 } : Client) ∈
        st.clients.filterMap keepAfterSend :=
      List.mem_filterMap.mpr ⟨c, hc, by unfold keepAfterSend; simp [ho, hf]⟩
    have hnd' : ((st.clients.filterMap keepAfterSend).map Client.id).Nodup :=
      hnd.sublist (idsAfterSend_sublist st.clients)
    have hrest := ih ⟨st.clients.filterMap keepAfterSend⟩
      { c with queueDepth := c.queueDepth + 1 }
      (fun q hq => hs q (List.mem_cons_of_mem p hq)) hc' ho hf hnd'
    simp only [List.map_cons, runTrace, hstep, List.filter_append,
      List.map_append, hone]
    simp only [List.map_cons, List.map_nil, List.cons_append, List.nil_append,
      List.cons.injEq, true_and]
    exact hrest

/--
C6 (order preservation): per topic and per subscriber, delivery order is
publish order. Publishing the payload sequence `ps` delivers to any OPEN
non-failing client exactly `ps` in order — in particular `P1` before
`P2` — and on the client a message sequence arriving from the virgin
state is dispatched to listeners message by message, in arrival order,
with the internal queue never engaged. Nothing relates different
subscribers or different topics.
-/
theorem c6_order_preservation (ps : List JSValue) (st : ServerState)
    (c : Client) (hs : ∀ p ∈ ps, serializable p = true)
    (hc : c ∈ st.clients) (ho : c.isOpen = true) (hf : c.sendFails = false)
    (hnd : (st.clients.map Client.id).Nodup) :
    (((runTrace st (ps.map .publish)).2.filter
        (fun d => d.clientId = c.id)).map Delivery.payload = ps) ∧
    ∀ (m : ListenerMap) (msgs : List RealtimeData),
      clientRun m ⟨[], false⟩ msgs =
        (⟨[], false⟩, (msgs.map (dispatchMessage m)).flatten) :=
  ⟨runPublishes_delivered ps st c hs hc ho hf hnd, clientRun_empty_queue⟩

/-- Witness for C6: two publishes to `wstate1` reach client 1 in order. -/
theorem c6_order_preservation_witness :
    (∀ p ∈ [oceanPayload, vesselPayload], serializable p = true) ∧
    (⟨1, true, false, 0⟩ : Client) ∈ wstate1.clients ∧
    (Client.mk 1 true false 0).isOpen = true ∧
    (Client.mk 1 true false 0).sendFails = false ∧
    (wstate1.clients.map Client.id).Nodup ∧
    ((((runTrace wstate1
          ([oceanPayload, vesselPayload].map .publish)).2.filter
        (fun d => d.clientId = (Client.mk 1 true false 0).id)).map
        Delivery.payload = [oceanPayload, vesselPayload]) ∧
     ∀ (m : ListenerMap) (msgs : List RealtimeData),
       clientRun m ⟨[], false⟩ msgs =
         (⟨[], false⟩, (msgs.map (dispatchMessage m)).flatten)) :=
  ⟨by decide, by decide, by decide, by decide, by decide,
   c6_order_preservation [oceanPayload, vesselPayload] wstate1
     ⟨1, true, false, 0⟩ (by decide) (by decide) (by decide) (by decide)
     (by decide)⟩

/--
C7, counterexample: client 1 connects and never sends a single heartbeat;
one billion milliseconds elapse — far beyond any configured timeout plus
one 30-second heartbeat interval (60000 + 30000 stands in for a timeout
of twice the interval) — yet the next publish still reaches client 1 and
it is still in the client set: the server answers heartbeats but runs no
liveness timer and never removes a silent connection.
-/
theorem c7_counterexample :
    1000000000 > 60000 + heartbeatIntervalMs ∧
    runTrace initialServerState
        [.connect 1, .elapse 1000000000, .publish oceanPayload] =
      (⟨[⟨1, true, false, 1⟩]⟩, [⟨1, welcomeMessage⟩, ⟨1, oceanPayload⟩]) :=
  ⟨by decide, rfl⟩

/--
C7 (amended): the hub has no heartbeat liveness mechanism. The passage
of time triggers no handler, the message handler (including the
heartbeat branch, which only answers) never mutates the client set, and
any sequence of inbound messages and elapsed time leaves the server
state exactly as it was — a connection is removed only by a close or
error event or a send failure. The client's heartbeat send interval is
hard-coded to 30000 ms, not a configuration parameter.
-/
theorem c7_no_heartbeat_liveness :
    (∀ (st : ServerState) (ms : Nat), serverStep st (.elapse ms) = (st, [])) ∧
    (∀ (st : ServerState) (m : ClientMsg), (handleClientMessage st m).2 = st) ∧
    heartbeatIntervalMs = 30000 ∧
    ∀ (st : ServerState) (evts : List Event),
      (∀ e ∈ evts, passiveEvent e = true) → (runTrace st evts).1 = st := by
  refine ⟨fun st ms => rfl, handleClientMessage_state, rfl, ?_⟩
  intro st evts
  induction evts generalizing st with
  | nil =>
    intro _
    rfl
  | cons e es ih =>
    intro h
    have he := h e (List.mem_cons_self e es)
    have hes : ∀ e' ∈ es, passiveEvent e' = true :=
      fun e' h' => h e' (List.mem_cons_of_mem e h')
    cases e with
    | clientMsg i m =>
      simp [runTrace, serverStep, handleClientMessage_state, ih _ hes]
    | elapse ms => simp [runTrace, serverStep, ih _ hes]
    | connect i => simp [passiveEvent] at he
    | closeEvt i => simp [passiveEvent] at he
    | errorEvt i => simp [passiveEvent] at he
    | publish q => simp [passiveEvent] at he

/-- Witness for C7 (amended): a heartbeat and 99999 ms of silence leave
the one-client state untouched. -/
theorem c7_no_heartbeat_liveness_witness :
    (∀ e ∈ [Event.clientMsg 1 (.heartbeat "t"), Event.elapse 99999],
      passiveEvent e = true) ∧
    (runTrace ⟨[⟨1, true, false, 0⟩]⟩
        [Event.clientMsg 1 (.heartbeat "t"), Event.elapse 99999]).1 =
      ⟨[⟨1, true, false, 0⟩]⟩ :=
  ⟨by decide, c7_no_heartbeat_liveness.2.2.2 _ _ (by decide)⟩

/--
C8, counterexample: `RealtimeService.subscribe` is not idempotent.
Subscribing the callback `⟨7, false⟩` to `alert` twice in a row leaves a
listener registry different from subscribing once, and the `alert`
listener array then holds the callback twice, not exactly once.
-/
theorem c8_counterexample :
    subscribeListener "alert" ⟨7, false⟩
        (subscribeListener "alert" ⟨7, false⟩ []) ≠
      subscribeListener "alert" ⟨7, false⟩ [] ∧
    getListeners (subscribeListener "alert" ⟨7, false⟩
        (subscribeListener "alert" ⟨7, false⟩ [])) "alert" =
      [⟨7, false⟩, ⟨7, false⟩] := by
  exact ⟨by decide, rfl⟩

/--
C8 (amended): re-subscribing is never an error — `subscribe` is total and
appends the callback to the topic's listener array — but it is not
idempotent: a second identical call appends a second copy, so the
listener array for the topic then contains the callback twice.
-/
theorem c8_subscribe_appends (t : String) (cb : Listener) (m : ListenerMap) :
    getListeners (subscribeListener t cb m) t = getListeners m t ++ [cb] ∧
    getListeners (subscribeListener t cb (subscribeListener t cb m)) t =
      getListeners m t ++ [cb, cb] := by
  refine ⟨getListeners_subscribe t cb m, ?_⟩
  rw [getListeners_subscribe, getListeners_subscribe, List.append_assoc]
  rfl

/--
C9 (publish error semantics): `broadcast` on an empty client set returns
successfully with no deliveries (a valid no-op, never a throw), and on a
non-serializable payload it fails synchronously — `JSON.stringify` throws
before the send loop — with no deliveries made and the client set
untouched, so no partial fan-out ever occurs.
-/
theorem c9_publish_error_semantics (p q : JSValue) (st : ServerState)
    (hp : serializable p = true) (hq : serializable q = false) :
    broadcast p ⟨[]⟩ = .ok ([], ⟨[]⟩) ∧ broadcast q st = .error () := by
  constructor
  · unfold broadcast
    simp [hp]
  · unfold broadcast
    simp [hq]

/-- Witness for C9: a concrete well-formed payload against the empty set
and a concrete `BigInt` payload against a one-client set. -/
theorem c9_publish_error_semantics_witness :
    serializable oceanPayload = true ∧
    serializable (.bigintVal 1) = false ∧
    (broadcast oceanPayload ⟨[]⟩ = .ok ([], ⟨[]⟩) ∧
     broadcast (.bigintVal 1) ⟨[⟨1, true, false, 0⟩]⟩ = .error ()) :=
  ⟨by decide, by decide,
   c9_publish_error_semantics oceanPayload (.bigintVal 1)
     ⟨[⟨1, true, false, 0⟩]⟩ (by decide) (by decide)⟩

/--
C10 (inbound dispatch isolation): on receipt of a message the client
invokes exactly the callbacks registered for the message's type followed
by the wildcard `*` callbacks, in registration order — independently of
which callbacks throw, since each invocation is wrapped in `try`/`catch`;
a throwing callback never prevents the remaining invocations and the
dispatch loop always completes.
-/
theorem c10_dispatch_isolation (m : ListenerMap) (msg : RealtimeData) :
    dispatchMessage m msg =
      (getListeners m msg.dataType ++ getListeners m "*").map Listener.lid := by
  unfold dispatchMessage
  exact invokeAll_eq _

end SardinAI
